import Mathlib

/-!
Verification of the WNBA data-collection script (`data_collect_3.py`).

The script is embedded shallowly:

* JSON payloads become the inductive type `Json`; Python's truthiness,
  `d[k]` indexing, `d.get(k, default)`, `k in d` and `for x in d`
  become `truthy`, `pyIndex`, `pyGet`, `pyContains` and `pyIterate`,
  each raising (`Except PyErr`) exactly where Python raises.
* The HTTP transport is an oracle `String → GetResult` mapping an
  endpoint path to what `requests.get` does there: return a response
  (status code plus a body that parses or not) or raise.
* All side effects of a run (the API-call counter, the sleeps, the
  issued requests, console diagnostics, files written, tables written)
  are fields of `RunState`, threaded through the pipeline.  Local file
  writes are modelled as pure state updates; local I/O failures are
  outside the model.
* Uncaught Python exceptions are modelled by `Except PyErr`: a
  `.error` result of the pipeline is an aborted run.
-/

namespace WNBA

/-- JSON values as the script manipulates them (numbers as integers;
object fields keep insertion order, keys are unique as in Python dicts). -/
inductive Json where
  | null : Json
  | bool (b : Bool) : Json
  | num (n : Int) : Json
  | str (s : String) : Json
  | arr (elems : List Json) : Json
  | obj (fields : List (String × Json)) : Json

mutual

/-- Structural equality of JSON values (Python `==` on parsed JSON),
used for set membership and list membership below. -/
def Json.beq : Json → Json → Bool
  | .null, .null => true
  | .bool a, .bool b => a == b
  | .num a, .num b => a == b
  | .str a, .str b => a == b
  | .arr a, .arr b => Json.beqList a b
  | .obj a, .obj b => Json.beqFields a b
  | _, _ => false
termination_by structural j => j

/-- Elementwise equality of JSON arrays. -/
def Json.beqList : List Json → List Json → Bool
  | [], [] => true
  | a :: as, b :: bs => Json.beq a b && Json.beqList as bs
  | _, _ => false
termination_by structural l => l

/-- Fieldwise equality of JSON objects. -/
def Json.beqFields : List (String × Json) → List (String × Json) → Bool
  | [], [] => true
  | (k, v) :: as, (k2, v2) :: bs => k == k2 && Json.beq v v2 && Json.beqFields as bs
  | _, _ => false
termination_by structural l => l

end

instance : BEq Json := ⟨Json.beq⟩

/-- Python truthiness of a JSON value (`if x:`). -/
def truthy : Json → Bool
  | .null => false
  | .bool b => b
  | .num n => n != 0
  | .str s => s != ""
  | .arr l => !l.isEmpty
  | .obj f => !f.isEmpty

/-- First binding of a key in an object's field list (Python dict lookup;
keys are unique, so first match is the match). -/
def lookupField : List (String × Json) → String → Option Json
  | [], _ => none
  | (k, v) :: rest, key => if k = key then some v else lookupField rest key

/-- Python uncaught-exception kinds the script can hit. -/
inductive PyErr where
  | keyError (k : String)
  | typeError (msg : String)
  | attributeError (msg : String)
deriving DecidableEq

/-- Python `d[k]` with a string key: object lookup, `KeyError` when the
key is absent, `TypeError` on any non-dict receiver. -/
def pyIndex : Json → String → Except PyErr Json
  | .obj fields, k =>
      match lookupField fields k with
      | some v => .ok v
      | none => .error (.keyError k)
  | _, _ => .error (.typeError "value is not subscriptable by string")

/-- Python `d.get(k, default)`: only dicts have `.get`; any other
receiver raises `AttributeError`. -/
def pyGet (j : Json) (k : String) (default : Json) : Except PyErr Json :=
  match j with
  | .obj fields => .ok ((lookupField fields k).getD default)
  | _ => .error (.attributeError "value has no attribute get")

/-- Python `k in d`: key test on dicts, membership on lists, substring
test on strings, `TypeError` otherwise. -/
def pyContains (k : String) : Json → Except PyErr Bool
  | .obj fields => .ok (lookupField fields k).isSome
  | .arr elems => .ok (elems.contains (.str k))
  | .str s => .ok (if k = "" then true else (s.splitOn k).length > 1)
  | _ => .error (.typeError "argument is not a container")

/-- Python iteration (`len(x)` and `for e in x` share this domain):
lists yield elements, dicts yield their keys, strings yield one-character
strings, everything else raises `TypeError`. -/
def pyIterate : Json → Except PyErr (List Json)
  | .arr elems => .ok elems
  | .obj fields => .ok (fields.map (fun kv => .str kv.1))
  | .str s => .ok (s.toList.map (fun c => .str c.toString))
  | _ => .error (.typeError "value is not iterable")

/-- Containers (values Python can iterate / take `len` of). -/
def isContainer : Json → Bool
  | .arr _ => true
  | .obj _ => true
  | .str _ => true
  | _ => false

/-- Dict test. -/
def isObjJ : Json → Bool
  | .obj _ => true
  | _ => false

/-- Whether a parsed JSON value is hashable in Python: lists and dicts
are not, so `set.add` raises `TypeError` on them; `None`, booleans,
numbers and strings are. -/
def isHashable : Json → Bool
  | .arr _ => false
  | .obj _ => false
  | _ => true

/-- Python `str()` as used by the script's f-strings to splice an
identifier into an endpoint path or filename.  Identifiers are atoms
(strings or numbers) in every payload the API serves; composite values
are abbreviated rather than fully rendered. -/
def pyStr : Json → String
  | .str s => s
  | .num n => toString n
  | .bool true => "True"
  | .bool false => "False"
  | .null => "None"
  | .arr _ => "[...]"
  | .obj _ => "{...}"

/-- Outcome of one `requests.get(url)`: either the call returns a
response (with a status code and a body that parses as JSON or not), or
the call itself raises (connection error, timeout). -/
inductive GetResult where
  | response (status : Nat) (body : Option Json)
  | exn (msg : String)

/-- Whether `requests.get` returned (did not raise). -/
def isResponse : GetResult → Bool
  | .response _ _ => true
  | .exn _ => false

/-- The value `_make_request` hands back for a given transport outcome:
the parsed body on a 200 with well-formed JSON, `None` otherwise. -/
def resultOf : GetResult → Option Json
  | .exn _ => none
  | .response status body =>
      if status = 200 then
        match body with
        | some j => some j
        | none => none
      else none

/-- Console diagnostics the script prints (informational progress lines
are not modelled; every error/warning line is). -/
inductive LogEvent where
  | statusError (status : Nat) (endpoint : String)
  | fetchError (endpoint : String)
  | missingPlayerId (gameId : Json) (payload : Json)
  | playerError (gameId : Json) (team : String) (payload : Json)
  | complete (apiCalls : Nat)

/-- One `games_{year}.csv` row (values are the raw JSON values the
script puts in the dict at lines 108-114). -/
structure GameRecord where
  game_id : Json
  date : Json
  home_team : Json
  away_team : Json
  venue : Json

/-- One `player_game_stats_{year}.csv` row (lines 129-142). -/
structure PlayerStatRecord where
  game_id : Json
  game_date : Json
  player_id : Json
  player_name : Json
  team : Json
  opponent : Json
  home_away : String
  starter : Json
  minutes : Json
  three_points_made : Json
  three_points_att : Json
  points : Json

/-- One `player_profiles.csv` row (lines 176-183). -/
structure ProfileRow where
  player_id : Json
  name : Json
  position : Json
  experience : Json
  height : Json
  weight : Json

/-- Every observable effect of a run: the collector's counter, the
number of sleeps performed, the GET requests issued (in order), the
diagnostics printed, the raw JSON files written into the year directory,
the accumulated rows, the set of seen player ids (insertion order), the
filenames in the Players directory, and the three tabular outputs. -/
structure RunState where
  api_calls : Nat
  sleeps : Nat
  requests : List String
  logs : List LogEvent
  yearFiles : List (String × Json)
  gamesData : List GameRecord
  playerStats : List PlayerStatRecord
  allPlayers : List Json
  playersFiles : List String
  profilesCsv : Option (List ProfileRow)
  gamesCsv : Option (List GameRecord)
  playerStatsCsv : Option (List PlayerStatRecord)

/-- State at the start of a run: fresh collector (counter zero), given
Players-directory contents and cumulative profile table. -/
def initState (playersFiles : List String) (profilesCsv : Option (List ProfileRow)) : RunState :=
  { api_calls := 0
    sleeps := 0
    requests := []
    logs := []
    yearFiles := []
    gamesData := []
    playerStats := []
    allPlayers := []
    playersFiles := playersFiles
    profilesCsv := profilesCsv
    gamesCsv := none
    playerStatsCsv := none }

/-- `self.sleep_time` (line 13). -/
def sleep_time : ℚ := 3 / 2

/-- Total time spent sleeping so far, in the script's time units. -/
def elapsedSleep (st : RunState) : ℚ := st.sleeps * sleep_time

/-- `_make_request` (lines 16-33).  A GET is issued; if it raises, the
handler logs and returns `None` — note that the counter increment and
the sleep at lines 22-23 sit inside the `try` after the GET, so they
are skipped on a transport exception.  If a response comes back, the
counter and sleep happen, then: status 200 with well-formed JSON yields
the parsed body; status 200 with a malformed body raises in
`response.json()`, is caught and logged; any other status is logged.
Either failure returns `None`. -/
def makeRequest (oracle : String → GetResult) (endpoint : String) (st : RunState) :
    Option Json × RunState :=
  let st := { st with requests := st.requests ++ [endpoint] }
  match oracle endpoint with
  | .exn _ =>
      (none, { st with logs := st.logs ++ [.fetchError endpoint] })
  | .response status body =>
      let st := { st with api_calls := st.api_calls + 1, sleeps := st.sleeps + 1 }
      if status = 200 then
        match body with
        | some j => (some j, st)
        | none => (none, { st with logs := st.logs ++ [.fetchError endpoint] })
      else
        (none, { st with logs := st.logs ++ [.statusError status endpoint] })

/-- N successive client calls (the C2 scenario). -/
def runCalls (oracle : String → GetResult) (endpoints : List String) (st : RunState) : RunState :=
  endpoints.foldl (fun s e => (makeRequest oracle e s).2) st

/-- Endpoint of `get_season_games` (line 37). -/
def scheduleEndpoint (year : String) : String :=
  "games/" ++ year ++ "/REG/schedule.json"

/-- Endpoint of `get_game_statistics` (line 42). -/
def summaryEndpoint (gameId : Json) : String :=
  "games/" ++ pyStr gameId ++ "/summary.json"

/-- Endpoint of `get_player_profile` (line 47). -/
def profileEndpoint (playerId : Json) : String :=
  "players/" ++ pyStr playerId ++ "/profile.json"

/-- `get_season_games` (lines 35-38). -/
def get_season_games (oracle : String → GetResult) (year : String) (st : RunState) :
    Option Json × RunState :=
  makeRequest oracle (scheduleEndpoint year) st

/-- `get_game_statistics` (lines 40-43). -/
def get_game_statistics (oracle : String → GetResult) (gameId : Json) (st : RunState) :
    Option Json × RunState :=
  makeRequest oracle (summaryEndpoint gameId) st

/-- `get_player_profile` (lines 45-48). -/
def get_player_profile (oracle : String → GetResult) (playerId : Json) (st : RunState) :
    Option Json × RunState :=
  makeRequest oracle (profileEndpoint playerId) st

/-- `Path(f).stem` for a file matching the glob pattern: the name with
its final `.json` suffix removed. -/
def stemOf (f : String) : String :=
  String.mk (f.toList.take (f.toList.length - 5))

/-- Whether `Path(playersDir).glob('*.json')` yields this filename: it
ends in `.json` and, per the glob rule for `*`, does not start with a
dot (so the bare name `.json` is not matched). -/
def isJsonFilename (f : String) : Bool :=
  match f.toList with
  | [] => false
  | c :: rest => c != '.' && ((c :: rest).drop ((c :: rest).length - 5) == ".json".toList)

/-- `get_existing_players` (lines 66-68): the stems of the `*.json`
files in the Players directory. -/
def get_existing_players (files : List String) : List String :=
  (files.filter (fun f => isJsonFilename f)).map stemOf

/-- The successful case of `all_players.add(player_id)` (line 126):
Python set insertion, modelled on a duplicate-free list in insertion
order.  On an unhashable (list/dict) identifier `set.add` raises
`TypeError` instead; that path never reaches this function — it is
classified by `processPlayer` (via `isHashable`) as a caught error with
nothing added. -/
def addPlayer (players : List Json) (pid : Json) : List Json :=
  if players.contains pid then players else players ++ [pid]

/-- What the `try` body at lines 119-148 does with one player payload:
`player.get('id')` raises on a non-dict payload (caught, error logged,
nothing else happened yet); a missing or falsy id is warned about and
skipped before the id is added to the seen set; a truthy but unhashable
(list/dict) id makes `all_players.add` itself raise `TypeError` (caught,
error logged, nothing added); otherwise the id is added, and then
`stats.get(...)` raises if the `statistics` value is present but not a
dict (caught, error logged, id already added). -/
inductive PlayerOutcome where
  | warnMissing
  | caught (added : Option Json)
  | record (pid : Json) (rec : PlayerStatRecord)

/-- The `player_stats` dict built at lines 129-142: every missing
numeric statistic defaults to `0`, a missing name defaults to
`"Unknown"`, a missing starter flag to `False`. -/
def derivePlayerStat (gameId gameDate teamName oppName : Json) (team : String)
    (playerFields statFields : List (String × Json)) : PlayerStatRecord :=
  { game_id := gameId
    game_date := gameDate
    player_id := (lookupField playerFields "id").getD .null
    player_name := (lookupField playerFields "full_name").getD (.str "Unknown")
    team := teamName
    opponent := oppName
    home_away := team
    starter := (lookupField playerFields "starter").getD (.bool false)
    minutes := (lookupField statFields "minutes").getD (.num 0)
    three_points_made := (lookupField statFields "three_points_made").getD (.num 0)
    three_points_att := (lookupField statFields "three_points_att").getD (.num 0)
    points := (lookupField statFields "points").getD (.num 0) }

/-- Classify one iteration of the player loop (lines 118-148).  After
the truthiness test, `all_players.add(player_id)` at line 126 raises
`TypeError` when the id is an unhashable list or dict — caught at line
144 with nothing added and no row.  The team and opponent names are
re-read inside the `try` in the source (`game_stats[team]['name']`,
lines 134-135); those lookups already succeeded when `game_info` was
built at lines 111-112, so they are passed in here. -/
def processPlayer (gameId gameDate teamName oppName : Json) (team : String)
    (player : Json) : PlayerOutcome :=
  match player with
  | .obj fields =>
      let player_id := (lookupField fields "id").getD .null
      if truthy player_id = false then
        .warnMissing
      else if isHashable player_id = false then
        .caught none
      else
        match (lookupField fields "statistics").getD (.obj []) with
        | .obj statFields =>
            .record player_id
              (derivePlayerStat gameId gameDate teamName oppName team fields statFields)
        | _ => .caught (some player_id)
  | _ => .caught none

/-- Apply one player-loop iteration to the run state: warn and skip, or
log a caught error (the id having been added first when the failure came
after line 126), or add the id and append exactly one stat row. -/
def applyPlayerOutcome (gameId gameDate teamName oppName : Json) (team : String)
    (st : RunState) (player : Json) : RunState :=
  match processPlayer gameId gameDate teamName oppName team player with
  | .warnMissing =>
      { st with logs := st.logs ++ [.missingPlayerId gameId player] }
  | .caught added =>
      match added with
      | some pid =>
          { st with allPlayers := addPlayer st.allPlayers pid
                    logs := st.logs ++ [.playerError gameId team player] }
      | none =>
          { st with logs := st.logs ++ [.playerError gameId team player] }
  | .record pid rec =>
      { st with allPlayers := addPlayer st.allPlayers pid
                playerStats := st.playerStats ++ [rec] }

/-- The whole player loop for one roster. -/
def processRoster (gameId gameDate teamName oppName : Json) (team : String)
    (roster : List Json) (st : RunState) : RunState :=
  roster.foldl (applyPlayerOutcome gameId gameDate teamName oppName team) st

/-- One iteration of `for team in ['home', 'away']` (lines 116-148):
index the team block, test `'players' in` it, and if present iterate the
roster.  A non-dict block or a non-iterable `players` value raises
outside the per-player `try` and aborts the run. -/
def processTeam (gameStats gameId gameDate : Json) (team : String)
    (teamName oppName : Json) (st : RunState) : Except PyErr RunState := do
  let tblock ← pyIndex gameStats team
  let hasPlayers ← pyContains "players" tblock
  if hasPlayers then do
    let playersVal ← pyIndex tblock "players"
    let roster ← pyIterate playersVal
    .ok (processRoster gameId gameDate teamName oppName team roster st)
  else
    .ok st

/-- One iteration of the game loop (lines 98-148): read the game id
(uncaught `KeyError` if absent), fetch the summary; a fetch failure or a
falsy payload skips the game; otherwise persist the raw payload, build
`game_info` (lines 108-115 — these direct indexings are *not* inside any
`try`, so a payload without a home/away block or team name aborts the
run), then process both rosters, home first. -/
def processGameEntry (oracle : String → GetResult) (game : Json)
    (st : RunState) : Except PyErr RunState := do
  let gameId ← pyIndex game "id"
  let fetched := get_game_statistics oracle gameId st
  match fetched.1 with
  | none => .ok fetched.2
  | some gameStats =>
      if truthy gameStats = false then .ok fetched.2
      else do
        let st := { fetched.2 with
          yearFiles := fetched.2.yearFiles ++ [("game_" ++ pyStr gameId ++ ".json", gameStats)] }
        let gameDate ← pyIndex game "scheduled"
        let homeBlock ← pyIndex gameStats "home"
        let homeName ← pyIndex homeBlock "name"
        let awayBlock ← pyIndex gameStats "away"
        let awayName ← pyIndex awayBlock "name"
        let venueBlock ← pyGet gameStats "venue" (.obj [])
        let venueName ← pyGet venueBlock "name" (.str "")
        let st := { st with gamesData := st.gamesData ++
          [{ game_id := gameId
             date := gameDate
             home_team := homeName
             away_team := awayName
             venue := venueName }] }
        let st ← processTeam gameStats gameId gameDate "home" homeName awayName st
        processTeam gameStats gameId gameDate "away" awayName homeName st

/-- The game loop, in schedule order. -/
def processGames (oracle : String → GetResult) :
    List Json → RunState → Except PyErr RunState
  | [], st => .ok st
  | g :: gs, st => do
      let st ← processGameEntry oracle g st
      processGames oracle gs st

/-- Lines 75-148 of `collect_season_data`: fetch the schedule, persist
it when truthy, and when it is truthy and contains a `games` key run the
game loop over it (`len(...)` and iteration both raise on a non-iterable
`games` value).  This phase reads and writes none of the Players
directory, the profile table, or the season CSV outputs, so it is run
from the zero state and the caller stitches those fields back in. -/
def gamePhase (oracle : String → GetResult) (year : String) :
    Except PyErr RunState := do
  let fetched := get_season_games oracle year (initState [] none)
  let st := match fetched.1 with
    | some s =>
        if truthy s then
          { fetched.2 with yearFiles :=
              fetched.2.yearFiles ++ [("schedule_" ++ year ++ ".json", s)] }
        else fetched.2
    | none => fetched.2
  match fetched.1 with
  | some s =>
      if truthy s then do
        let hasGames ← pyContains "games" s
        if hasGames then do
          let gamesVal ← pyIndex s "games"
          let games ← pyIterate gamesVal
          processGames oracle games st
        else .ok st
      else .ok st
  | none => .ok st

/-- One iteration of the profile loop (lines 168-184): fetch the
profile; a fetch failure or falsy payload skips the player (no file, no
row); otherwise write `player_{id}.json` into the Players directory and
derive one profile row, each field defaulted to an empty/zero value —
these `profile.get(...)` calls are *not* inside a `try`, so a truthy
non-dict payload aborts the run. -/
def processProfile (oracle : String → GetResult) (pid : Json)
    (st : RunState) (rows : List ProfileRow) :
    Except PyErr (RunState × List ProfileRow) := do
  let fetched := get_player_profile oracle pid st
  match fetched.1 with
  | none => .ok (fetched.2, rows)
  | some profile =>
      if truthy profile = false then .ok (fetched.2, rows)
      else do
        let st := { fetched.2 with playersFiles :=
            fetched.2.playersFiles ++ ["player_" ++ pyStr pid ++ ".json"] }
        let name ← pyGet profile "full_name" (.str "")
        let position ← pyGet profile "position" (.str "")
        let experience ← pyGet profile "experience" (.str "")
        let height ← pyGet profile "height" (.num 0)
        let weight ← pyGet profile "weight" (.num 0)
        .ok (st, rows ++
          [{ player_id := pid
             name := name
             position := position
             experience := experience
             height := height
             weight := weight }])

/-- The profile loop over all novel identifiers. -/
def processProfiles (oracle : String → GetResult) :
    List Json → RunState → List ProfileRow → Except PyErr (RunState × List ProfileRow)
  | [], st, rows => .ok (st, rows)
  | p :: ps, st, rows => do
      let stRows ← processProfile oracle p st rows
      processProfiles oracle ps stRows.1 stRows.2

/-- Lines 186-197: merge freshly derived profile rows into the
cumulative table — read-concatenate-rewrite when the table exists,
create it fresh otherwise; existing rows first, no deduplication. -/
def appendOrCreateTable (existing : Option (List ProfileRow))
    (newRows : List ProfileRow) : List ProfileRow :=
  match existing with
  | some existingRows => existingRows ++ newRows
  | none => newRows

/-- Lines 158-197: novel ids are the seen set minus the baseline stems;
when any exist, fetch each profile, and when any rows were derived merge
them into the cumulative table. -/
def profilePhase (oracle : String → GetResult) (existingPlayers : List String)
    (st : RunState) : Except PyErr RunState := do
  let newPlayers := st.allPlayers.filter
    (fun p => !((existingPlayers.map Json.str).contains p))
  if newPlayers.isEmpty then .ok st
  else do
    let stRows ← processProfiles oracle newPlayers st []
    if stRows.2.isEmpty then .ok stRows.1
    else .ok { stRows.1 with
      profilesCsv := some (appendOrCreateTable stRows.1.profilesCsv stRows.2) }

/-- `collect_season_data` (lines 70-199).  Directory creation is pure
layout and not modelled.  The baseline stems are read from the initial
Players directory (line 83); the game phase (lines 75-156) touches
neither the Players directory nor the profile table, so it is computed
from the zero state and the initial values are stitched back in before
the two season tables are written unconditionally (lines 150-156) and
the profile backfill runs.  The final `print` reports the call count. -/
def collect_season_data (oracle : String → GetResult) (year : String)
    (initPlayersFiles : List String) (initProfilesCsv : Option (List ProfileRow)) :
    Except PyErr RunState := do
  let existingPlayers := get_existing_players initPlayersFiles
  let g ← gamePhase oracle year
  let st := { g with playersFiles := initPlayersFiles, profilesCsv := initProfilesCsv }
  let st := { st with gamesCsv := some st.gamesData
                      playerStatsCsv := some st.playerStats }
  let st ← profilePhase oracle existingPlayers st
  .ok { st with logs := st.logs ++ [.complete st.api_calls] }

/-- A schedule entry the game loop can process without an uncaught
error: a dict with `id` and `scheduled` keys. -/
def wfGameEntry : Json → Bool
  | .obj fields =>
      (lookupField fields "id").isSome && (lookupField fields "scheduled").isSome
  | _ => false

/-- A team block `game_info` and the roster loop can process without an
uncaught error: a dict with a `name` key whose `players` value, when the
key is present, is something Python can iterate. -/
def wfTeamBlock : Json → Bool
  | .obj fields =>
      (lookupField fields "name").isSome &&
      (match lookupField fields "players" with
       | none => true
       | some p => isContainer p)
  | _ => false

/-- A game-summary payload the per-game body (lines 104-148) can process
without an uncaught error: a dict with well-formed `home` and `away`
blocks whose `venue` value, when present, is a dict. -/
def wfGameStats : Json → Bool
  | .obj fields =>
      (match lookupField fields "home" with
       | some h => wfTeamBlock h
       | none => false) &&
      (match lookupField fields "away" with
       | some a => wfTeamBlock a
       | none => false) &&
      (match lookupField fields "venue" with
       | none => true
       | some v => isObjJ v)
  | _ => false

/-- A schedule payload lines 90-99 can process without an uncaught
error: a dict whose `games` value, when the key is present, is a list of
well-formed entries. -/
def wfSchedule : Json → Bool
  | .obj fields =>
      (match lookupField fields "games" with
       | none => true
       | some (.arr gs) => gs.all wfGameEntry
       | some _ => false)
  | _ => false

/-- A transport that fails every GET with a connection error. -/
def transportDown : String → GetResult := fun _ => .exn "connection refused"

/-- A one-game 2021 schedule payload. -/
def sampleSchedule : Json :=
  .obj [("games", .arr [.obj [("id", .str "G1"), ("scheduled", .str "2021-05-14")]])]

/-- A well-formed summary for game G1 whose home roster contains the
single player P1. -/
def sampleSummary : Json :=
  .obj [("home", .obj [("name", .str "Aces"),
                       ("players", .arr [.obj [("id", .str "P1")]])]),
        ("away", .obj [("name", .str "Sky")])]

/-- A season where the schedule and game G1 fetch cleanly and every
other endpoint is down. -/
def seasonOracle : String → GetResult := fun e =>
  if e = "games/2021/REG/schedule.json" then .response 200 (some sampleSchedule)
  else if e = "games/G1/summary.json" then .response 200 (some sampleSummary)
  else .exn "connection refused"

/-- A successfully fetched but structurally malformed summary: the home
team block is missing. -/
def summaryMissingHome : Json := .obj [("away", .obj [("name", .str "Sky")])]

/-- A season where game G1's summary payload is malformed. -/
def missingHomeOracle : String → GetResult := fun e =>
  if e = "games/2021/REG/schedule.json" then .response 200 (some sampleSchedule)
  else if e = "games/G1/summary.json" then .response 200 (some summaryMissingHome)
  else .exn "connection refused"

/-- The run state right after the per-game bookkeeping of lines 98-115:
the summary fetch counted and slept, the raw payload persisted, the
GameRecord appended — and before either roster is processed. -/
def gameMidState (st : RunState) (gameId gameDate gameStats homeName awayName venueName : Json) :
    RunState :=
  { st with
    api_calls := st.api_calls + 1
    sleeps := st.sleeps + 1
    requests := st.requests ++ [summaryEndpoint gameId]
    yearFiles := st.yearFiles ++ [("game_" ++ pyStr gameId ++ ".json", gameStats)]
    gamesData := st.gamesData ++
      [{ game_id := gameId
         date := gameDate
         home_team := homeName
         away_team := awayName
         venue := venueName }] }

/-- A summary with a venue and a populated home roster whose away team
block lacks a `players` key. -/
def oneSidedSummary : Json :=
  .obj [("home", .obj [("name", .str "Aces"),
                       ("players", .arr [.obj [("id", .str "P1")]])]),
        ("away", .obj [("name", .str "Sky")]),
        ("venue", .obj [("name", .str "Arena")])]

/-- A transport returning `oneSidedSummary` for every endpoint. -/
def oneSidedOracle : String → GetResult := fun _ =>
  .response 200 (some oneSidedSummary)

/-- A truthy payload that is simultaneously a well-formed schedule (its
`games` list is empty) and a well-formed game summary, so a transport
serving it everywhere satisfies every well-formedness hypothesis. -/
def benignBody : Json :=
  .obj [("games", .arr []),
        ("home", .obj [("name", .str "Aces")]),
        ("away", .obj [("name", .str "Sky")])]

/-- A transport serving `benignBody` on every endpoint. -/
def benignOracle : String → GetResult := fun _ => .response 200 (some benignBody)

/-- The issued-request trace of a completed run (empty for an aborted
run). -/
def requestsOf : Except PyErr RunState → List String
  | .ok st => st.requests
  | .error _ => []

/-- The final state of a 2021 run over a dead transport starting with
one profile file on disk and no cumulative table. -/
def downRunA : RunState :=
  { api_calls := 0
    sleeps := 0
    requests := ["games/2021/REG/schedule.json"]
    logs := [.fetchError "games/2021/REG/schedule.json", .complete 0]
    yearFiles := []
    gamesData := []
    playerStats := []
    allPlayers := []
    playersFiles := ["player_a.json"]
    profilesCsv := none
    gamesCsv := some []
    playerStatsCsv := some [] }

/-- The final state of a 2021 run over a dead transport starting with
an empty Players directory and an empty cumulative table. -/
def downRunB : RunState :=
  { api_calls := 0
    sleeps := 0
    requests := ["games/2021/REG/schedule.json"]
    logs := [.fetchError "games/2021/REG/schedule.json", .complete 0]
    yearFiles := []
    gamesData := []
    playerStats := []
    allPlayers := []
    playersFiles := []
    profilesCsv := some []
    gamesCsv := some []
    playerStatsCsv := some [] }

theorem makeRequest_fst (oracle : String → GetResult) (e : String) (st : RunState) :
    (makeRequest oracle e st).1 = resultOf (oracle e) := by
  unfold makeRequest resultOf
  cases oracle e with
  | exn m => rfl
  | response status body =>
      by_cases h : status = 200
      · cases body <;> simp [h]
      · simp [h]

theorem makeRequest_response_ok (oracle : String → GetResult) (e : String)
    (st : RunState) (j : Json) (h : oracle e = .response 200 (some j)) :
    makeRequest oracle e st =
      (some j, { st with api_calls := st.api_calls + 1
                         sleeps := st.sleeps + 1
                         requests := st.requests ++ [e] }) := by
  unfold makeRequest
  rw [h]
  rfl

theorem resultOf_eq_some (r : GetResult) (j : Json) (h : resultOf r = some j) :
    r = .response 200 (some j) := by
  unfold resultOf at h
  cases r with
  | exn m => exact absurd h (by simp)
  | response status body =>
      by_cases hs : status = 200
      · cases body with
        | none => simp [hs] at h
        | some b => simp [hs] at h; rw [hs, h]
      · simp [hs] at h

theorem makeRequest_untouched (oracle : String → GetResult) (e : String) (st : RunState) :
    (makeRequest oracle e st).2.yearFiles = st.yearFiles ∧
    (makeRequest oracle e st).2.gamesData = st.gamesData ∧
    (makeRequest oracle e st).2.playerStats = st.playerStats ∧
    (makeRequest oracle e st).2.allPlayers = st.allPlayers ∧
    (makeRequest oracle e st).2.playersFiles = st.playersFiles ∧
    (makeRequest oracle e st).2.profilesCsv = st.profilesCsv ∧
    (makeRequest oracle e st).2.gamesCsv = st.gamesCsv ∧
    (makeRequest oracle e st).2.playerStatsCsv = st.playerStatsCsv := by
  unfold makeRequest
  cases oracle e with
  | exn m => exact ⟨rfl, rfl, rfl, rfl, rfl, rfl, rfl, rfl⟩
  | response status body =>
      by_cases h : status = 200
      · cases body <;> simp [h]
      · simp [h]

theorem makeRequest_count (oracle : String → GetResult) (e : String) (st : RunState) :
    (makeRequest oracle e st).2.api_calls =
      st.api_calls + (if isResponse (oracle e) then 1 else 0) ∧
    (makeRequest oracle e st).2.sleeps =
      st.sleeps + (if isResponse (oracle e) then 1 else 0) := by
  unfold makeRequest isResponse
  cases oracle e with
  | exn m => simp
  | response status body =>
      by_cases h : status = 200
      · cases body <;> simp [h]
      · simp [h]

/-- C2 (counterexample): a call whose GET raises a transport exception
increments no counter and performs no sleep — the increment and the
sleep at lines 22-23 sit after the GET inside the `try`, so the claimed
"incremented exactly once and a fixed sleep is performed" for every
call, regardless of outcome, is false at this input (it would require a
count of 1 and one sleep). -/
theorem transport_exception_not_counted :
    (makeRequest transportDown "games/2021/REG/schedule.json"
        (initState [] none)).2.api_calls = 0 ∧
    (makeRequest transportDown "games/2021/REG/schedule.json"
        (initState [] none)).2.sleeps = 0 :=
  ⟨rfl, rfl⟩

/-- C2 (amended): after any sequence of calls, the counter and the
number of sleeps both equal the number of calls whose GET returned a
response (any status, even with an unparseable body); total sleep time
is that count times the configured 1.5 interval.  Calls whose GET raised
contribute neither a count nor a sleep. -/
theorem call_counter_matches_responses (oracle : String → GetResult)
    (endpoints : List String) (st : RunState) :
    (runCalls oracle endpoints st).api_calls =
      st.api_calls + endpoints.countP (fun e => isResponse (oracle e)) ∧
    (runCalls oracle endpoints st).sleeps =
      st.sleeps + endpoints.countP (fun e => isResponse (oracle e)) ∧
    elapsedSleep (runCalls oracle endpoints st) =
      ((st.sleeps + endpoints.countP (fun e => isResponse (oracle e)) : Nat) : ℚ) * sleep_time := by
  have main : ∀ (es : List String) (s : RunState),
      (runCalls oracle es s).api_calls =
        s.api_calls + es.countP (fun e => isResponse (oracle e)) ∧
      (runCalls oracle es s).sleeps =
        s.sleeps + es.countP (fun e => isResponse (oracle e)) := by
    intro es
    induction es with
    | nil => intro s; simp [runCalls]
    | cons e tail ih =>
        intro s
        have hc := makeRequest_count oracle e s
        have h1 : runCalls oracle (e :: tail) s =
            runCalls oracle tail (makeRequest oracle e s).2 := rfl
        obtain ⟨ha, hs⟩ := ih (makeRequest oracle e s).2
        rw [h1, ha, hs, hc.1, hc.2, List.countP_cons]
        by_cases hb : isResponse (oracle e) = true
        · rw [if_pos hb]
          omega
        · rw [if_neg hb]
          omega
  obtain ⟨ha, hs⟩ := main endpoints st
  exact ⟨ha, hs, by rw [elapsedSleep, hs]⟩

/-- C5: `_make_request` is total — for every endpoint and transport
outcome it either hands back the parsed body of a 200 response, or it
hands back `None` after printing exactly one diagnostic (a fetch error
for a raised GET or unparseable body, a status error for a non-200
code).  No failure propagates past it. -/
theorem request_never_raises (oracle : String → GetResult) (endpoint : String)
    (st : RunState) :
    (∃ j, oracle endpoint = .response 200 (some j) ∧
        (makeRequest oracle endpoint st).1 = some j) ∨
    ((makeRequest oracle endpoint st).1 = none ∧
      ∃ ev, (makeRequest oracle endpoint st).2.logs = st.logs ++ [ev] ∧
        (ev = .fetchError endpoint ∨
          ∃ s, s ≠ 200 ∧ ev = .statusError s endpoint)) := by
  cases h : oracle endpoint with
  | exn m =>
      right
      refine ⟨by simp [makeRequest, h], .fetchError endpoint, by simp [makeRequest, h], .inl rfl⟩
  | response status body =>
      by_cases hs : status = 200
      · cases body with
        | some j =>
            left
            exact ⟨j, by rw [hs], by simp [makeRequest, h, hs]⟩
        | none =>
            right
            refine ⟨by simp [makeRequest, h, hs], .fetchError endpoint,
              by simp [makeRequest, h, hs], .inl rfl⟩
      · right
        refine ⟨by simp [makeRequest, h, hs], .statusError status endpoint,
          by simp [makeRequest, h, hs], .inr ⟨status, hs, rfl⟩⟩

/-- C6: merging into the cumulative profile table: on a missing table
the result is exactly the new rows; on an existing table it is exactly
the existing rows followed by the new rows — no row lost, nothing
deduplicated, counts add up. -/
theorem appendOrCreateTable_spec (existingRows newRows : List ProfileRow) :
    appendOrCreateTable none newRows = newRows ∧
    appendOrCreateTable (some existingRows) newRows = existingRows ++ newRows ∧
    (appendOrCreateTable (some existingRows) newRows).length =
      existingRows.length + newRows.length := by
  refine ⟨rfl, rfl, ?_⟩
  simp [appendOrCreateTable]

/-- C9: a player appearance whose `id` field is present but falsy
(empty string, zero, null, false) is handled exactly like a missing
identifier: one warning carrying the payload, no stat row, no addition
to the seen-players set — line 121 tests truthiness of the extracted
value, not key presence. -/
theorem falsy_player_id_skipped (gameId gameDate teamName oppName : Json)
    (team : String) (st : RunState) (fields : List (String × Json)) (v : Json)
    (hv : lookupField fields "id" = some v) (hf : truthy v = false) :
    applyPlayerOutcome gameId gameDate teamName oppName team st (.obj fields) =
      { st with logs := st.logs ++ [.missingPlayerId gameId (.obj fields)] } := by
  simp [applyPlayerOutcome, processPlayer, hv, hf]

/-- Witness for C9 at the three falsy shapes the claim names: an empty
string, the number zero, and null. -/
theorem falsy_player_id_skipped_witness :
    (applyPlayerOutcome (.str "G1") (.str "D") (.str "H") (.str "A") "home"
        (initState [] none) (.obj [("id", .str "")]) =
      { initState [] none with
        logs := (initState [] none).logs ++
          [.missingPlayerId (.str "G1") (.obj [("id", .str "")])] }) ∧
    (applyPlayerOutcome (.str "G1") (.str "D") (.str "H") (.str "A") "home"
        (initState [] none) (.obj [("id", .num 0)]) =
      { initState [] none with
        logs := (initState [] none).logs ++
          [.missingPlayerId (.str "G1") (.obj [("id", .num 0)])] }) ∧
    (applyPlayerOutcome (.str "G1") (.str "D") (.str "H") (.str "A") "home"
        (initState [] none) (.obj [("id", .null)]) =
      { initState [] none with
        logs := (initState [] none).logs ++
          [.missingPlayerId (.str "G1") (.obj [("id", .null)])] }) :=
  ⟨falsy_player_id_skipped _ _ _ _ _ _ _ _ rfl rfl,
   falsy_player_id_skipped _ _ _ _ _ _ _ _ rfl rfl,
   falsy_player_id_skipped _ _ _ _ _ _ _ _ rfl rfl⟩

/-- C4 (counterexample): a player appearance whose identifier is present
and truthy but whose `statistics` field is a non-dict value produces no
PlayerGameStatRecord — `stats.get(...)` raises, the per-player handler
at lines 144-148 swallows it — refuting "if the identifier is present,
exactly one PlayerGameStatRecord is produced". -/
theorem truthy_id_without_record :
    (applyPlayerOutcome (.str "G1") (.str "D") (.str "Aces") (.str "Sky") "home"
        (initState [] none)
        (.obj [("id", .str "P1"), ("statistics", .str "corrupt")])).playerStats = [] ∧
    lookupField [("id", .str "P1"), ("statistics", .str "corrupt")] "id" =
      some (.str "P1") ∧
    truthy (.str "P1") = true :=
  ⟨rfl, rfl, rfl⟩

/-- C4 (amended): for one player appearance in a processed game's
roster: a missing-or-falsy identifier yields exactly one warning
carrying the payload and nothing else (no row, no set addition); a
truthy but unhashable (list/dict) identifier makes `all_players.add`
itself raise — caught, one error diagnostic with the payload, no row,
nothing added to the seen set; a truthy hashable identifier with a
dict-or-absent `statistics` field yields exactly one stat row — every
missing numeric statistic defaulted to zero, a missing name to
"Unknown" — plus the set addition; a truthy hashable identifier with a
non-dict `statistics` value yields the set addition and one
caught-error diagnostic but no row. -/
theorem player_appearance_effects (gameId gameDate teamName oppName : Json)
    (team : String) (st : RunState) (fields : List (String × Json)) (pid : Json)
    (hpid : pid = (lookupField fields "id").getD .null) :
    (truthy pid = false →
      applyPlayerOutcome gameId gameDate teamName oppName team st (.obj fields) =
        { st with logs := st.logs ++ [.missingPlayerId gameId (.obj fields)] }) ∧
    (truthy pid = true → isHashable pid = false →
      applyPlayerOutcome gameId gameDate teamName oppName team st (.obj fields) =
        { st with logs := st.logs ++ [.playerError gameId team (.obj fields)] }) ∧
    (∀ statFields, truthy pid = true → isHashable pid = true →
      (lookupField fields "statistics").getD (.obj []) = .obj statFields →
      ∃ r, applyPlayerOutcome gameId gameDate teamName oppName team st (.obj fields) =
          { st with allPlayers := addPlayer st.allPlayers pid
                    playerStats := st.playerStats ++ [r] } ∧
        r.player_id = pid ∧
        r.player_name = (lookupField fields "full_name").getD (.str "Unknown") ∧
        r.starter = (lookupField fields "starter").getD (.bool false) ∧
        r.minutes = (lookupField statFields "minutes").getD (.num 0) ∧
        r.three_points_made = (lookupField statFields "three_points_made").getD (.num 0) ∧
        r.three_points_att = (lookupField statFields "three_points_att").getD (.num 0) ∧
        r.points = (lookupField statFields "points").getD (.num 0)) ∧
    (∀ stats, truthy pid = true → isHashable pid = true →
      (lookupField fields "statistics").getD (.obj []) = stats →
      isObjJ stats = false →
      applyPlayerOutcome gameId gameDate teamName oppName team st (.obj fields) =
        { st with allPlayers := addPlayer st.allPlayers pid
                  logs := st.logs ++ [.playerError gameId team (.obj fields)] }) := by
  subst hpid
  refine ⟨?_, ?_, ?_, ?_⟩
  · intro hfalse
    simp [applyPlayerOutcome, processPlayer, hfalse]
  · intro htrue hunhash
    simp [applyPlayerOutcome, processPlayer, htrue, hunhash]
  · intro statFields htrue hhash hstats
    refine ⟨derivePlayerStat gameId gameDate teamName oppName team fields statFields,
      ?_, by rfl, by rfl, by rfl, by rfl, by rfl, by rfl, by rfl⟩
    simp [applyPlayerOutcome, processPlayer, htrue, hhash, hstats, derivePlayerStat]
  · intro stats htrue hhash hstats hobj
    simp only [applyPlayerOutcome, processPlayer, htrue, hhash]
    rw [hstats]
    cases stats with
    | obj f => simp [isObjJ] at hobj
    | null => simp
    | bool b => simp
    | num n => simp
    | str s => simp
    | arr l => simp

/-- Witness for C4's amended theorem: a roster appearance with the
truthy hashable id "P1" and no statistics block yields exactly one
fully-defaulted stat row. -/
theorem player_appearance_effects_witness :
    ∃ r, applyPlayerOutcome (.str "G1") (.str "D") (.str "Aces") (.str "Sky") "home"
        (initState [] none) (.obj [("id", Json.str "P1")]) =
      { initState [] none with
        allPlayers := addPlayer (initState [] none).allPlayers (.str "P1")
        playerStats := (initState [] none).playerStats ++ [r] } ∧
      r.player_id = .str "P1" ∧
      r.player_name = (lookupField [("id", Json.str "P1")] "full_name").getD (.str "Unknown") ∧
      r.starter = (lookupField [("id", Json.str "P1")] "starter").getD (.bool false) ∧
      r.minutes = (lookupField ([] : List (String × Json)) "minutes").getD (.num 0) ∧
      r.three_points_made = (lookupField ([] : List (String × Json)) "three_points_made").getD (.num 0) ∧
      r.three_points_att = (lookupField ([] : List (String × Json)) "three_points_att").getD (.num 0) ∧
      r.points = (lookupField ([] : List (String × Json)) "points").getD (.num 0) :=
  (player_appearance_effects (.str "G1") (.str "D") (.str "Aces") (.str "Sky") "home"
    (initState [] none) [("id", Json.str "P1")] (.str "P1") rfl).2.2.1 [] rfl rfl rfl

/-- C7: a profile fetch that yields Empty changes nothing persistent:
no file is written into the Players directory, no row is appended, the
cumulative table is untouched, and the set of persisted identifier stems
is exactly what it was — so the identifier stays a candidate for a
future run. -/
theorem failed_profile_fetch_leaves_state (oracle : String → GetResult)
    (pid : Json) (st : RunState) (rows : List ProfileRow)
    (h : resultOf (oracle (profileEndpoint pid)) = none) :
    ∃ st2, processProfile oracle pid st rows = .ok (st2, rows) ∧
      st2.playersFiles = st.playersFiles ∧
      st2.profilesCsv = st.profilesCsv ∧
      get_existing_players st2.playersFiles = get_existing_players st.playersFiles := by
  have hx : (makeRequest oracle (profileEndpoint pid) st).1 = none :=
    (makeRequest_fst oracle (profileEndpoint pid) st).trans h
  have hu := makeRequest_untouched oracle (profileEndpoint pid) st
  refine ⟨(makeRequest oracle (profileEndpoint pid) st).2, ?_,
    hu.2.2.2.2.1, hu.2.2.2.2.2.1, by rw [hu.2.2.2.2.1]⟩
  simp [processProfile, get_player_profile, hx]

/-- Witness for C7: a profile fetch for P9 over a dead transport leaves
the Players directory and the profile table exactly as they were. -/
theorem failed_profile_fetch_leaves_state_witness :
    ∃ st2, processProfile transportDown (.str "P9") (initState [] none) [] =
        .ok (st2, []) ∧
      st2.playersFiles = (initState [] none).playersFiles ∧
      st2.profilesCsv = (initState [] none).profilesCsv ∧
      get_existing_players st2.playersFiles =
        get_existing_players (initState [] none).playersFiles :=
  failed_profile_fetch_leaves_state transportDown (.str "P9") (initState [] none) [] rfl

/-- Reducing an Except do-bind whose first step already succeeded. -/
theorem bindOk {e a b : Type} (x : a) (f : a → Except e b) :
    (do let y ← Except.ok x; f y) = f x := rfl

/-- A roster fold never touches the persisted year files or the games
table: each player-loop iteration only appends logs or stat rows and
grows the seen set. -/
theorem processRoster_preserves (gid gd tn opp : Json) (team : String) :
    ∀ (roster : List Json) (s : RunState),
      (processRoster gid gd tn opp team roster s).yearFiles = s.yearFiles ∧
      (processRoster gid gd tn opp team roster s).gamesData = s.gamesData := by
  intro roster
  induction roster with
  | nil => intro s; exact ⟨rfl, rfl⟩
  | cons p ps ih =>
      intro s
      have hstep : (applyPlayerOutcome gid gd tn opp team s p).yearFiles = s.yearFiles ∧
          (applyPlayerOutcome gid gd tn opp team s p).gamesData = s.gamesData := by
        unfold applyPlayerOutcome
        cases processPlayer gid gd tn opp team p with
        | warnMissing => exact ⟨rfl, rfl⟩
        | caught added =>
            cases added with
            | some pid => exact ⟨rfl, rfl⟩
            | none => exact ⟨rfl, rfl⟩
        | record pid rec => exact ⟨rfl, rfl⟩
      have hfold : processRoster gid gd tn opp team (p :: ps) s =
          processRoster gid gd tn opp team ps (applyPlayerOutcome gid gd tn opp team s p) := rfl
      rw [hfold]
      have hrec := ih (applyPlayerOutcome gid gd tn opp team s p)
      exact ⟨hrec.1.trans hstep.1, hrec.2.trans hstep.2⟩

/-- A side whose team block either lacks a roster or carries an
iterable one is processed without an abort, and its processing never
touches the persisted year files or the games table. -/
theorem processTeam_ok_frame (gf : List (String × Json)) (team : String)
    (tf : List (String × Json)) (gid gd tn opp : Json) (s : RunState)
    (hlk : lookupField gf team = some (.obj tf))
    (hp : lookupField tf "players" = none ∨
      ∃ p, lookupField tf "players" = some p ∧ isContainer p = true) :
    ∃ s2, processTeam (.obj gf) gid gd team tn opp s = .ok s2 ∧
      s2.yearFiles = s.yearFiles ∧ s2.gamesData = s.gamesData := by
  simp only [processTeam]
  rw [show pyIndex (Json.obj gf) team = Except.ok (Json.obj tf) by simp [pyIndex, hlk]]
  simp only [bindOk]
  rw [show pyContains "players" (Json.obj tf) =
    Except.ok (lookupField tf "players").isSome from rfl]
  simp only [bindOk]
  cases hp with
  | inl hnone => rw [hnone]; exact ⟨s, rfl, rfl, rfl⟩
  | inr hsome =>
      obtain ⟨p, hp2, hc⟩ := hsome
      rw [hp2]
      simp only [Option.isSome_some, if_true]
      rw [show pyIndex (Json.obj tf) "players" = Except.ok p by simp [pyIndex, hp2]]
      simp only [bindOk]
      cases p with
      | arr l =>
          rw [show pyIterate (Json.arr l) = Except.ok l from rfl]
          simp only [bindOk]
          exact ⟨_, rfl, (processRoster_preserves gid gd tn opp team l s).1,
            (processRoster_preserves gid gd tn opp team l s).2⟩
      | obj f =>
          rw [show pyIterate (Json.obj f) =
            Except.ok (f.map (fun kv => Json.str kv.1)) from rfl]
          simp only [bindOk]
          exact ⟨_, rfl,
            (processRoster_preserves gid gd tn opp team (f.map (fun kv => Json.str kv.1)) s).1,
            (processRoster_preserves gid gd tn opp team (f.map (fun kv => Json.str kv.1)) s).2⟩
      | str s3 =>
          rw [show pyIterate (Json.str s3) =
            Except.ok (s3.toList.map (fun c => Json.str c.toString)) from rfl]
          simp only [bindOk]
          exact ⟨_, rfl,
            (processRoster_preserves gid gd tn opp team
              (s3.toList.map (fun c => Json.str c.toString)) s).1,
            (processRoster_preserves gid gd tn opp team
              (s3.toList.map (fun c => Json.str c.toString)) s).2⟩
      | null => simp [isContainer] at hc
      | bool b => simp [isContainer] at hc
      | num n => simp [isContainer] at hc

/-- C10: in every successfully fetched, processable game, a team block
that lacks a `players` key is handled in complete silence: processing
that side is the identity on the run state (zero stat rows and zero
diagnostics for it), while the raw payload is still persisted and the
game's GameRecord still emitted.  When the home (resp. away) side lacks
the key, the whole game step equals processing the away (resp. home)
roster alone from the post-bookkeeping state, so the playerless side
contributes nothing even when the other side is populated or a venue is
present. -/
theorem missing_players_field_silent (oracle : String → GetResult) (game : Json)
    (st : RunState) (gameId gameDate : Json)
    (gf hf af : List (String × Json)) (hn an vb vn : Json)
    (hid : pyIndex game "id" = .ok gameId)
    (hsched : pyIndex game "scheduled" = .ok gameDate)
    (hres : resultOf (oracle (summaryEndpoint gameId)) = some (.obj gf))
    (hhome : lookupField gf "home" = some (.obj hf))
    (haway : lookupField gf "away" = some (.obj af))
    (hhn : lookupField hf "name" = some hn)
    (han : lookupField af "name" = some an)
    (hvb : pyGet (.obj gf) "venue" (.obj []) = .ok vb)
    (hvn : pyGet vb "name" (.str "") = .ok vn)
    (hhp : lookupField hf "players" = none ∨
      ∃ p, lookupField hf "players" = some p ∧ isContainer p = true)
    (hap : lookupField af "players" = none ∨
      ∃ p, lookupField af "players" = some p ∧ isContainer p = true) :
    (∀ (team : String) (tn opp : Json) (tf : List (String × Json)) (s : RunState),
        lookupField gf team = some (.obj tf) →
        lookupField tf "players" = none →
        processTeam (.obj gf) gameId gameDate team tn opp s = .ok s) ∧
    (∃ st2, processGameEntry oracle game st = .ok st2 ∧
      st2.yearFiles = st.yearFiles ++ [("game_" ++ pyStr gameId ++ ".json", .obj gf)] ∧
      st2.gamesData = st.gamesData ++
        [{ game_id := gameId
           date := gameDate
           home_team := hn
           away_team := an
           venue := vn }]) ∧
    (lookupField hf "players" = none →
      processGameEntry oracle game st =
        processTeam (.obj gf) gameId gameDate "away" an hn
          (gameMidState st gameId gameDate (.obj gf) hn an vn)) ∧
    (lookupField af "players" = none →
      processGameEntry oracle game st =
        processTeam (.obj gf) gameId gameDate "home" hn an
          (gameMidState st gameId gameDate (.obj gf) hn an vn)) := by
  have hteam : ∀ (team : String) (tn opp : Json) (tf : List (String × Json)) (s : RunState),
      lookupField gf team = some (.obj tf) →
      lookupField tf "players" = none →
      processTeam (.obj gf) gameId gameDate team tn opp s = .ok s := by
    intro team tn opp tf s hlk hnp
    simp only [processTeam]
    rw [show pyIndex (Json.obj gf) team = Except.ok (Json.obj tf) by simp [pyIndex, hlk]]
    simp only [bindOk]
    rw [show pyContains "players" (Json.obj tf) = Except.ok false by
      simp [pyContains, hnp]]
    simp only [bindOk]
    simp
  have htr : truthy (Json.obj gf) = true := by
    cases gf with
    | nil => simp [lookupField] at hhome
    | cons a l => simp [truthy]
  have hor := resultOf_eq_some _ _ hres
  have hmr := makeRequest_response_ok oracle (summaryEndpoint gameId) st _ hor
  have hred : processGameEntry oracle game st =
      (do
        let s1 ← processTeam (.obj gf) gameId gameDate "home" hn an
          (gameMidState st gameId gameDate (.obj gf) hn an vn)
        processTeam (.obj gf) gameId gameDate "away" an hn s1) := by
    simp only [processGameEntry, get_game_statistics, hid, bindOk, hmr]
    simp only [htr, Bool.true_eq_false, if_false]
    rw [hsched]
    simp only [bindOk]
    rw [show pyIndex (Json.obj gf) "home" = Except.ok (Json.obj hf) by simp [pyIndex, hhome]]
    simp only [bindOk]
    rw [show pyIndex (Json.obj hf) "name" = Except.ok hn by simp [pyIndex, hhn]]
    simp only [bindOk]
    rw [show pyIndex (Json.obj gf) "away" = Except.ok (Json.obj af) by simp [pyIndex, haway]]
    simp only [bindOk]
    rw [show pyIndex (Json.obj af) "name" = Except.ok an by simp [pyIndex, han]]
    simp only [bindOk]
    rw [hvb]
    simp only [bindOk]
    rw [hvn]
    simp only [bindOk]
    rfl
  refine ⟨hteam, ?_, ?_, ?_⟩
  · obtain ⟨s1, h1, f1, g1⟩ := processTeam_ok_frame gf "home" hf gameId gameDate hn an
      (gameMidState st gameId gameDate (.obj gf) hn an vn) hhome hhp
    obtain ⟨s2, h2, f2, g2⟩ := processTeam_ok_frame gf "away" af gameId gameDate an hn
      s1 haway hap
    refine ⟨s2, ?_, ?_, ?_⟩
    · rw [hred, h1]
      simp only [bindOk]
      exact h2
    · rw [f2, f1]
      rfl
    · rw [g2, g1]
      rfl
  · intro hnone
    rw [hred, hteam "home" hn an hf _ hhome hnone]
    simp only [bindOk]
  · intro hnone
    rw [hred]
    cases hx : processTeam (.obj gf) gameId gameDate "home" hn an
        (gameMidState st gameId gameDate (.obj gf) hn an vn) with
    | ok s1 =>
        simp only [bindOk]
        exact hteam "away" an hn af s1 haway hnone
    | error e => rfl

/-- Witness for C10 at the claim's central case: game G1 has a venue, a
populated home roster and an away block with no `players` key; the away
side is silent while home is processed, and the payload and GameRecord
are still emitted. -/
theorem missing_players_field_silent_witness :
    (∀ (team : String) (tn opp : Json) (tf : List (String × Json)) (s : RunState),
        lookupField [("home", Json.obj [("name", Json.str "Aces"),
                        ("players", Json.arr [Json.obj [("id", Json.str "P1")]])]),
                     ("away", Json.obj [("name", Json.str "Sky")]),
                     ("venue", Json.obj [("name", Json.str "Arena")])] team =
          some (.obj tf) →
        lookupField tf "players" = none →
        processTeam (.obj [("home", Json.obj [("name", Json.str "Aces"),
                             ("players", Json.arr [Json.obj [("id", Json.str "P1")]])]),
                           ("away", Json.obj [("name", Json.str "Sky")]),
                           ("venue", Json.obj [("name", Json.str "Arena")])])
          (.str "G1") (.str "2021-05-14") team tn opp s = .ok s) ∧
    (∃ st2, processGameEntry oneSidedOracle
        (.obj [("id", Json.str "G1"), ("scheduled", Json.str "2021-05-14")])
        (initState [] none) = .ok st2 ∧
      st2.yearFiles = (initState [] none).yearFiles ++
        [("game_" ++ pyStr (Json.str "G1") ++ ".json",
          .obj [("home", Json.obj [("name", Json.str "Aces"),
                  ("players", Json.arr [Json.obj [("id", Json.str "P1")]])]),
                ("away", Json.obj [("name", Json.str "Sky")]),
                ("venue", Json.obj [("name", Json.str "Arena")])])] ∧
      st2.gamesData = (initState [] none).gamesData ++
        [{ game_id := .str "G1"
           date := .str "2021-05-14"
           home_team := .str "Aces"
           away_team := .str "Sky"
           venue := .str "Arena" }]) ∧
    (lookupField [("name", Json.str "Aces"),
        ("players", Json.arr [Json.obj [("id", Json.str "P1")]])] "players" = none →
      processGameEntry oneSidedOracle
        (.obj [("id", Json.str "G1"), ("scheduled", Json.str "2021-05-14")])
        (initState [] none) =
      processTeam (.obj [("home", Json.obj [("name", Json.str "Aces"),
                           ("players", Json.arr [Json.obj [("id", Json.str "P1")]])]),
                         ("away", Json.obj [("name", Json.str "Sky")]),
                         ("venue", Json.obj [("name", Json.str "Arena")])])
        (.str "G1") (.str "2021-05-14") "away" (.str "Sky") (.str "Aces")
        (gameMidState (initState [] none) (.str "G1") (.str "2021-05-14")
          (.obj [("home", Json.obj [("name", Json.str "Aces"),
                   ("players", Json.arr [Json.obj [("id", Json.str "P1")]])]),
                 ("away", Json.obj [("name", Json.str "Sky")]),
                 ("venue", Json.obj [("name", Json.str "Arena")])])
          (.str "Aces") (.str "Sky") (.str "Arena"))) ∧
    (lookupField [("name", Json.str "Sky")] "players" = none →
      processGameEntry oneSidedOracle
        (.obj [("id", Json.str "G1"), ("scheduled", Json.str "2021-05-14")])
        (initState [] none) =
      processTeam (.obj [("home", Json.obj [("name", Json.str "Aces"),
                           ("players", Json.arr [Json.obj [("id", Json.str "P1")]])]),
                         ("away", Json.obj [("name", Json.str "Sky")]),
                         ("venue", Json.obj [("name", Json.str "Arena")])])
        (.str "G1") (.str "2021-05-14") "home" (.str "Aces") (.str "Sky")
        (gameMidState (initState [] none) (.str "G1") (.str "2021-05-14")
          (.obj [("home", Json.obj [("name", Json.str "Aces"),
                   ("players", Json.arr [Json.obj [("id", Json.str "P1")]])]),
                 ("away", Json.obj [("name", Json.str "Sky")]),
                 ("venue", Json.obj [("name", Json.str "Arena")])])
          (.str "Aces") (.str "Sky") (.str "Arena"))) :=
  missing_players_field_silent oneSidedOracle
    (.obj [("id", Json.str "G1"), ("scheduled", Json.str "2021-05-14")])
    (initState [] none) (.str "G1") (.str "2021-05-14")
    [("home", Json.obj [("name", Json.str "Aces"),
       ("players", Json.arr [Json.obj [("id", Json.str "P1")]])]),
     ("away", Json.obj [("name", Json.str "Sky")]),
     ("venue", Json.obj [("name", Json.str "Arena")])]
    [("name", Json.str "Aces"), ("players", Json.arr [Json.obj [("id", Json.str "P1")]])]
    [("name", Json.str "Sky")]
    (.str "Aces") (.str "Sky") (.obj [("name", Json.str "Arena")]) (.str "Arena")
    rfl rfl rfl rfl rfl rfl rfl rfl rfl
    (.inr ⟨.arr [.obj [("id", Json.str "P1")]], rfl, rfl⟩) (.inl rfl)

/-- Destructure a well-formed team block: a dict with a name, whose
roster, when present, is iterable. -/
theorem wfTeamBlock_elim (tb : Json) (h : wfTeamBlock tb = true) :
    ∃ tf hn, tb = .obj tf ∧ lookupField tf "name" = some hn ∧
      (lookupField tf "players" = none ∨
        ∃ p, lookupField tf "players" = some p ∧ isContainer p = true) := by
  cases tb with
  | obj tf =>
      simp only [wfTeamBlock, Bool.and_eq_true] at h
      obtain ⟨hname, hplayers⟩ := h
      obtain ⟨hn, hhn⟩ := Option.isSome_iff_exists.mp hname
      refine ⟨tf, hn, rfl, hhn, ?_⟩
      cases hp : lookupField tf "players" with
      | none => exact .inl rfl
      | some p =>
          right
          refine ⟨p, rfl, ?_⟩
          rw [hp] at hplayers
          exact hplayers
  | null => simp [wfTeamBlock] at h
  | bool b => simp [wfTeamBlock] at h
  | num n => simp [wfTeamBlock] at h
  | str s => simp [wfTeamBlock] at h
  | arr l => simp [wfTeamBlock] at h

/-- Destructure a well-formed game summary. -/
theorem wfGameStats_elim (gs : Json) (h : wfGameStats gs = true) :
    ∃ gf hb ab, gs = .obj gf ∧
      lookupField gf "home" = some hb ∧ wfTeamBlock hb = true ∧
      lookupField gf "away" = some ab ∧ wfTeamBlock ab = true ∧
      (lookupField gf "venue" = none ∨
        ∃ vf, lookupField gf "venue" = some (.obj vf)) := by
  cases gs with
  | obj gf =>
      simp only [wfGameStats, Bool.and_eq_true] at h
      obtain ⟨⟨hhome, haway⟩, hvenue⟩ := h
      cases hh : lookupField gf "home" with
      | none => rw [hh] at hhome; exact absurd hhome (by simp)
      | some hb =>
          cases ha : lookupField gf "away" with
          | none => rw [ha] at haway; exact absurd haway (by simp)
          | some ab =>
              rw [hh] at hhome
              rw [ha] at haway
              refine ⟨gf, hb, ab, rfl, hh, hhome, ha, haway, ?_⟩
              cases hv : lookupField gf "venue" with
              | none => exact .inl rfl
              | some v =>
                  right
                  rw [hv] at hvenue
                  cases v with
                  | obj vf => exact ⟨vf, rfl⟩
                  | null => simp [isObjJ] at hvenue
                  | bool b => simp [isObjJ] at hvenue
                  | num n => simp [isObjJ] at hvenue
                  | str s => simp [isObjJ] at hvenue
                  | arr l => simp [isObjJ] at hvenue
  | null => simp [wfGameStats] at h
  | bool b => simp [wfGameStats] at h
  | num n => simp [wfGameStats] at h
  | str s => simp [wfGameStats] at h
  | arr l => simp [wfGameStats] at h

/-- Destructure a well-formed schedule payload. -/
theorem wfSchedule_elim (s : Json) (h : wfSchedule s = true) :
    ∃ sf, s = .obj sf ∧
      (lookupField sf "games" = none ∨
        ∃ gs, lookupField sf "games" = some (.arr gs) ∧
          ∀ g ∈ gs, wfGameEntry g = true) := by
  cases s with
  | obj sf =>
      refine ⟨sf, rfl, ?_⟩
      simp only [wfSchedule] at h
      cases hg : lookupField sf "games" with
      | none => exact .inl rfl
      | some v =>
          right
          rw [hg] at h
          cases v with
          | arr gs =>
              refine ⟨gs, rfl, ?_⟩
              intro g hgmem
              exact List.all_eq_true.mp h g hgmem
          | null => simp at h
          | bool b => simp at h
          | num n => simp at h
          | str s2 => simp at h
          | obj f => simp at h
  | null => simp [wfSchedule] at h
  | bool b => simp [wfSchedule] at h
  | num n => simp [wfSchedule] at h
  | str s2 => simp [wfSchedule] at h
  | arr l => simp [wfSchedule] at h

/-- A side whose team block is well-formed never aborts the team loop
body: the roster loop itself is a fold of a total function. -/
theorem processTeam_total (gf : List (String × Json)) (team : String) (tb : Json)
    (gid gd tn opp : Json) (st : RunState)
    (hlk : lookupField gf team = some tb) (hwf : wfTeamBlock tb = true) :
    ∃ st2, processTeam (.obj gf) gid gd team tn opp st = .ok st2 := by
  obtain ⟨tf, hn, rfl, hhn, hplayers⟩ := wfTeamBlock_elim tb hwf
  simp only [processTeam]
  rw [show pyIndex (Json.obj gf) team = Except.ok (Json.obj tf) by simp [pyIndex, hlk]]
  simp only [bindOk]
  rw [show pyContains "players" (Json.obj tf) =
    Except.ok (lookupField tf "players").isSome from rfl]
  simp only [bindOk]
  cases hplayers with
  | inl hnone => rw [hnone]; exact ⟨st, rfl⟩
  | inr hsome =>
      obtain ⟨p, hp, hc⟩ := hsome
      rw [hp]
      simp only [Option.isSome_some, if_true]
      rw [show pyIndex (Json.obj tf) "players" = Except.ok p by simp [pyIndex, hp]]
      simp only [bindOk]
      cases p with
      | arr l => exact ⟨_, rfl⟩
      | obj f => exact ⟨_, rfl⟩
      | str s => exact ⟨_, rfl⟩
      | null => simp [isContainer] at hc
      | bool b => simp [isContainer] at hc
      | num n => simp [isContainer] at hc

/-- A well-formed schedule entry with a well-formed (or failed, or
falsy) summary fetch never aborts the game loop body. -/
theorem processGameEntry_total (oracle : String → GetResult) (game : Json)
    (st : RunState) (hwf : wfGameEntry game = true)
    (hg : ∀ gid j, resultOf (oracle (summaryEndpoint gid)) = some j →
      truthy j = true → wfGameStats j = true) :
    ∃ st2, processGameEntry oracle game st = .ok st2 := by
  cases game with
  | obj gfields =>
      simp only [wfGameEntry, Bool.and_eq_true] at hwf
      obtain ⟨hid0, hsched0⟩ := hwf
      obtain ⟨gid, hid⟩ := Option.isSome_iff_exists.mp hid0
      obtain ⟨gd, hsched⟩ := Option.isSome_iff_exists.mp hsched0
      simp only [processGameEntry, get_game_statistics]
      rw [show pyIndex (Json.obj gfields) "id" = Except.ok gid by simp [pyIndex, hid]]
      simp only [bindOk]
      cases hro : (makeRequest oracle (summaryEndpoint gid) st).1 with
      | none => exact ⟨_, rfl⟩
      | some gs =>
          dsimp only
          by_cases htr : truthy gs = false
          · rw [if_pos htr]
            exact ⟨_, rfl⟩
          · have htr2 : truthy gs = true := by revert htr; cases truthy gs <;> simp
            have hwfgs := hg gid gs
              ((makeRequest_fst oracle (summaryEndpoint gid) st).symm.trans hro) htr2
            obtain ⟨gf, hb, ab, rfl, hhome, hwfh, haway, hwfa, hvenue⟩ :=
              wfGameStats_elim gs hwfgs
            obtain ⟨hf2, hname, rfl, hhn, _⟩ := wfTeamBlock_elim hb hwfh
            obtain ⟨af2, aname, rfl, han, _⟩ := wfTeamBlock_elim ab hwfa
            rw [if_neg htr]
            rw [show pyIndex (Json.obj gfields) "scheduled" = Except.ok gd by
              simp [pyIndex, hsched]]
            simp only [bindOk]
            rw [show pyIndex (Json.obj gf) "home" = Except.ok (Json.obj hf2) by
              simp [pyIndex, hhome]]
            simp only [bindOk]
            rw [show pyIndex (Json.obj hf2) "name" = Except.ok hname by
              simp [pyIndex, hhn]]
            simp only [bindOk]
            rw [show pyIndex (Json.obj gf) "away" = Except.ok (Json.obj af2) by
              simp [pyIndex, haway]]
            simp only [bindOk]
            rw [show pyIndex (Json.obj af2) "name" = Except.ok aname by
              simp [pyIndex, han]]
            simp only [bindOk]
            have hv : ∃ vb, pyGet (Json.obj gf) "venue" (Json.obj []) =
                .ok (Json.obj vb) := by
              cases hvenue with
              | inl hnone => exact ⟨[], by simp [pyGet, hnone]⟩
              | inr hsome =>
                  obtain ⟨vf, hvf⟩ := hsome
                  exact ⟨vf, by simp [pyGet, hvf]⟩
            obtain ⟨vb, hvb⟩ := hv
            rw [hvb]
            simp only [bindOk]
            rw [show pyGet (Json.obj vb) "name" (Json.str "") =
              Except.ok ((lookupField vb "name").getD (Json.str "")) from rfl]
            simp only [bindOk]
            obtain ⟨stH, hH⟩ := processTeam_total gf "home" (.obj hf2) gid gd hname aname
              _ hhome hwfh
            rw [hH]
            simp only [bindOk]
            obtain ⟨stA, hA⟩ := processTeam_total gf "away" (.obj af2) gid gd aname hname
              stH haway hwfa
            rw [hA]
            exact ⟨stA, rfl⟩
  | null => simp [wfGameEntry] at hwf
  | bool b => simp [wfGameEntry] at hwf
  | num n => simp [wfGameEntry] at hwf
  | str s2 => simp [wfGameEntry] at hwf
  | arr l => simp [wfGameEntry] at hwf

/-- The whole game loop completes on well-formed entries. -/
theorem processGames_total (oracle : String → GetResult)
    (hg : ∀ gid j, resultOf (oracle (summaryEndpoint gid)) = some j →
      truthy j = true → wfGameStats j = true) :
    ∀ (games : List Json) (st : RunState),
      (∀ g ∈ games, wfGameEntry g = true) →
      ∃ st2, processGames oracle games st = .ok st2 := by
  intro games
  induction games with
  | nil => intro st _; exact ⟨st, rfl⟩
  | cons g gs ih =>
      intro st hall
      obtain ⟨st1, h1⟩ := processGameEntry_total oracle g st
        (hall g (List.mem_cons_self g gs)) hg
      obtain ⟨st2, h2⟩ := ih st1 (fun x hx => hall x (List.mem_cons_of_mem g hx))
      refine ⟨st2, ?_⟩
      simp only [processGames]
      rw [h1]
      simp only [bindOk]
      exact h2

/-- The schedule-and-games phase completes on well-formed payloads. -/
theorem gamePhase_total (oracle : String → GetResult) (year : String)
    (hs : ∀ j, resultOf (oracle (scheduleEndpoint year)) = some j →
      truthy j = true → wfSchedule j = true)
    (hg : ∀ gid j, resultOf (oracle (summaryEndpoint gid)) = some j →
      truthy j = true → wfGameStats j = true) :
    ∃ g, gamePhase oracle year = .ok g := by
  simp only [gamePhase, get_season_games]
  cases hro : (makeRequest oracle (scheduleEndpoint year) (initState [] none)).1 with
  | none => exact ⟨_, rfl⟩
  | some s =>
      dsimp only
      by_cases htr : truthy s = true
      · rw [if_pos htr, if_pos htr]
        have hwfs := hs s
          ((makeRequest_fst oracle (scheduleEndpoint year) (initState [] none)).symm.trans hro)
          htr
        obtain ⟨sf, rfl, hgames⟩ := wfSchedule_elim s hwfs
        rw [show pyContains "games" (Json.obj sf) =
          Except.ok (lookupField sf "games").isSome from rfl]
        simp only [bindOk]
        cases hgames with
        | inl hnone => rw [hnone]; exact ⟨_, rfl⟩
        | inr hsome =>
            obtain ⟨gs, hgs, hall⟩ := hsome
            rw [hgs]
            simp only [Option.isSome_some, if_true]
            rw [show pyIndex (Json.obj sf) "games" = Except.ok (Json.arr gs) by
              simp [pyIndex, hgs]]
            simp only [bindOk]
            rw [show pyIterate (Json.arr gs) = Except.ok gs from rfl]
            simp only [bindOk]
            exact processGames_total oracle hg gs _ hall
      · rw [if_neg htr, if_neg htr]
        exact ⟨_, rfl⟩

/-- One profile-loop iteration completes when truthy payloads are
dicts. -/
theorem processProfile_total (oracle : String → GetResult) (pid : Json)
    (st : RunState) (rows : List ProfileRow)
    (hp : ∀ q j, resultOf (oracle (profileEndpoint q)) = some j →
      truthy j = true → isObjJ j = true) :
    ∃ out, processProfile oracle pid st rows = .ok out := by
  simp only [processProfile, get_player_profile]
  cases hro : (makeRequest oracle (profileEndpoint pid) st).1 with
  | none => exact ⟨_, rfl⟩
  | some p =>
      dsimp only
      by_cases htr : truthy p = false
      · rw [if_pos htr]
        exact ⟨_, rfl⟩
      · have htr2 : truthy p = true := by revert htr; cases truthy p <;> simp
        have hobj := hp pid p
          ((makeRequest_fst oracle (profileEndpoint pid) st).symm.trans hro) htr2
        rw [if_neg htr]
        cases p with
        | obj pf =>
            rw [show pyGet (Json.obj pf) "full_name" (Json.str "") =
              Except.ok ((lookupField pf "full_name").getD (Json.str "")) from rfl]
            simp only [bindOk]
            rw [show pyGet (Json.obj pf) "position" (Json.str "") =
              Except.ok ((lookupField pf "position").getD (Json.str "")) from rfl]
            simp only [bindOk]
            rw [show pyGet (Json.obj pf) "experience" (Json.str "") =
              Except.ok ((lookupField pf "experience").getD (Json.str "")) from rfl]
            simp only [bindOk]
            rw [show pyGet (Json.obj pf) "height" (Json.num 0) =
              Except.ok ((lookupField pf "height").getD (Json.num 0)) from rfl]
            simp only [bindOk]
            rw [show pyGet (Json.obj pf) "weight" (Json.num 0) =
              Except.ok ((lookupField pf "weight").getD (Json.num 0)) from rfl]
            simp only [bindOk]
            exact ⟨_, rfl⟩
        | null => simp [isObjJ] at hobj
        | bool b => simp [isObjJ] at hobj
        | num n => simp [isObjJ] at hobj
        | str s2 => simp [isObjJ] at hobj
        | arr l => simp [isObjJ] at hobj

/-- The whole profile loop completes. -/
theorem processProfiles_total (oracle : String → GetResult)
    (hp : ∀ q j, resultOf (oracle (profileEndpoint q)) = some j →
      truthy j = true → isObjJ j = true) :
    ∀ (ps : List Json) (st : RunState) (rows : List ProfileRow),
      ∃ out, processProfiles oracle ps st rows = .ok out := by
  intro ps
  induction ps with
  | nil => intro st rows; exact ⟨(st, rows), rfl⟩
  | cons p ps2 ih =>
      intro st rows
      obtain ⟨out1, h1⟩ := processProfile_total oracle p st rows hp
      obtain ⟨out2, h2⟩ := ih out1.1 out1.2
      refine ⟨out2, ?_⟩
      simp only [processProfiles]
      rw [h1]
      simp only [bindOk]
      exact h2

/-- The profile backfill phase completes. -/
theorem profilePhase_total (oracle : String → GetResult)
    (existingPlayers : List String) (st : RunState)
    (hp : ∀ q j, resultOf (oracle (profileEndpoint q)) = some j →
      truthy j = true → isObjJ j = true) :
    ∃ st2, profilePhase oracle existingPlayers st = .ok st2 := by
  simp only [profilePhase]
  by_cases he : (st.allPlayers.filter
      (fun p => !((existingPlayers.map Json.str).contains p))).isEmpty = true
  · rw [if_pos he]
    exact ⟨st, rfl⟩
  · rw [if_neg he]
    obtain ⟨out, hout⟩ := processProfiles_total oracle hp
      (st.allPlayers.filter (fun p => !((existingPlayers.map Json.str).contains p))) st []
    rw [hout]
    simp only [bindOk]
    by_cases hr : out.2.isEmpty = true
    · rw [if_pos hr]
      exact ⟨out.1, rfl⟩
    · rw [if_neg hr]
      exact ⟨_, rfl⟩

/-- C3 (counterexample): a successfully fetched but structurally
malformed game payload — here one missing the home team block — aborts
the whole run with an uncaught `KeyError` at the `game_info`
construction (line 111), which is no local I/O failure; the run never
reaches Finalize, refuting "no failure other than a local I/O error
aborts the run". -/
theorem malformed_game_payload_aborts_run :
    collect_season_data missingHomeOracle "2021" [] none =
      .error (.keyError "home") := rfl

/-- C3 (amended): per-item fetch failures (Empty results) and arbitrary
per-player payloads never abort the run — if the schedule payload and
every successfully fetched truthy game payload are well-formed at the
game level (dicts with home/away blocks carrying a name and an iterable
roster when present, a dict venue when present) and every truthy
profile payload is a dict, the run reaches Finalize and logs the call
count.  A malformed game payload, by contrast, aborts the run (see the
counterexample). -/
theorem pipeline_completes_on_wellformed_payloads (oracle : String → GetResult)
    (year : String) (initPlayersFiles : List String)
    (initProfilesCsv : Option (List ProfileRow))
    (hs : ∀ j, resultOf (oracle (scheduleEndpoint year)) = some j →
      truthy j = true → wfSchedule j = true)
    (hg : ∀ gid j, resultOf (oracle (summaryEndpoint gid)) = some j →
      truthy j = true → wfGameStats j = true)
    (hp : ∀ q j, resultOf (oracle (profileEndpoint q)) = some j →
      truthy j = true → isObjJ j = true) :
    ∃ st, collect_season_data oracle year initPlayersFiles initProfilesCsv = .ok st ∧
      ∃ pre, st.logs = pre ++ [.complete st.api_calls] := by
  obtain ⟨g, hgp⟩ := gamePhase_total oracle year hs hg
  obtain ⟨st2, hpp⟩ := profilePhase_total oracle (get_existing_players initPlayersFiles)
    { g with playersFiles := initPlayersFiles
             profilesCsv := initProfilesCsv
             gamesCsv := some g.gamesData
             playerStatsCsv := some g.playerStats } hp
  simp only [collect_season_data]
  rw [hgp]
  simp only [bindOk]
  rw [hpp]
  simp only [bindOk]
  exact ⟨_, rfl, st2.logs, rfl⟩

/-- Witness for C3's amended theorem: a transport serving one benign
payload everywhere completes and logs the call count. -/
theorem pipeline_completes_on_wellformed_payloads_witness :
    ∃ st, collect_season_data benignOracle "2021" [] none = .ok st ∧
      ∃ pre, st.logs = pre ++ [.complete st.api_calls] :=
  pipeline_completes_on_wellformed_payloads benignOracle "2021" [] none
    (by
      intro j h ht
      have hj : benignBody = j := by simpa [benignOracle, resultOf] using h
      rw [← hj]
      rfl)
    (by
      intro gid j h ht
      have hj : benignBody = j := by simpa [benignOracle, resultOf] using h
      rw [← hj]
      rfl)
    (by
      intro q j h ht
      have hj : benignBody = j := by simpa [benignOracle, resultOf] using h
      rw [← hj]
      rfl)

/-- Reducing an Except do-bind whose first step already failed. -/
theorem bindErr {e a b : Type} (x : e) (f : a → Except e b) :
    (do let y ← Except.error x; f y) = .error x := rfl

/-- Inverting an Except do-bind that succeeded. -/
theorem bindEqOk {e a b : Type} {x : Except e a} {f : a → Except e b} {r : b}
    (h : (do let y ← x; f y) = .ok r) : ∃ y, x = .ok y ∧ f y = .ok r := by
  cases x with
  | ok y => exact ⟨y, rfl, h⟩
  | error err => exact Except.noConfusion h

/-- One profile-loop iteration never touches the two season tables. -/
theorem processProfile_preserves (oracle : String → GetResult) (pid : Json)
    (st : RunState) (rows : List ProfileRow) (out : RunState × List ProfileRow)
    (h : processProfile oracle pid st rows = .ok out) :
    out.1.gamesCsv = st.gamesCsv ∧ out.1.playerStatsCsv = st.playerStatsCsv := by
  have hu := makeRequest_untouched oracle (profileEndpoint pid) st
  unfold processProfile get_player_profile at h
  dsimp only at h
  split at h
  · cases h
    exact ⟨hu.2.2.2.2.2.2.1, hu.2.2.2.2.2.2.2⟩
  · split at h
    · cases h
      exact ⟨hu.2.2.2.2.2.2.1, hu.2.2.2.2.2.2.2⟩
    · obtain ⟨n1, _, h⟩ := bindEqOk h
      obtain ⟨n2, _, h⟩ := bindEqOk h
      obtain ⟨n3, _, h⟩ := bindEqOk h
      obtain ⟨n4, _, h⟩ := bindEqOk h
      obtain ⟨n5, _, h⟩ := bindEqOk h
      cases h
      exact ⟨hu.2.2.2.2.2.2.1, hu.2.2.2.2.2.2.2⟩

/-- The profile loop never touches the two season tables. -/
theorem processProfiles_preserves (oracle : String → GetResult) :
    ∀ (ps : List Json) (st : RunState) (rows : List ProfileRow)
      (out : RunState × List ProfileRow),
      processProfiles oracle ps st rows = .ok out →
      out.1.gamesCsv = st.gamesCsv ∧ out.1.playerStatsCsv = st.playerStatsCsv := by
  intro ps
  induction ps with
  | nil =>
      intro st rows out h
      cases h
      exact ⟨rfl, rfl⟩
  | cons p ps2 ih =>
      intro st rows out h
      unfold processProfiles at h
      obtain ⟨mid, hmid, h⟩ := bindEqOk h
      have h1 := processProfile_preserves oracle p st rows mid hmid
      have h2 := ih mid.1 mid.2 out h
      exact ⟨h2.1.trans h1.1, h2.2.trans h1.2⟩

/-- The profile backfill phase never touches the two season tables. -/
theorem profilePhase_preserves (oracle : String → GetResult)
    (ex : List String) (st st2 : RunState)
    (h : profilePhase oracle ex st = .ok st2) :
    st2.gamesCsv = st.gamesCsv ∧ st2.playerStatsCsv = st.playerStatsCsv := by
  unfold profilePhase at h
  dsimp only at h
  split at h
  · cases h
    exact ⟨rfl, rfl⟩
  · obtain ⟨out, hout, h⟩ := bindEqOk h
    have hp := processProfiles_preserves oracle _ st [] out hout
    split at h
    · cases h
      exact hp
    · cases h
      exact hp

/-- When the schedule fetch yields Empty, the game phase completes with
no game rows and no stat rows at all. -/
theorem gamePhase_schedule_empty (oracle : String → GetResult) (year : String)
    (h : resultOf (oracle (scheduleEndpoint year)) = none) :
    ∃ g, gamePhase oracle year = .ok g ∧ g.gamesData = [] ∧ g.playerStats = [] := by
  have hx : (makeRequest oracle (scheduleEndpoint year) (initState [] none)).1 = none :=
    (makeRequest_fst oracle (scheduleEndpoint year) (initState [] none)).trans h
  have hu := makeRequest_untouched oracle (scheduleEndpoint year) (initState [] none)
  refine ⟨(makeRequest oracle (scheduleEndpoint year) (initState [] none)).2, ?_,
    hu.2.1.trans rfl, hu.2.2.1.trans rfl⟩
  simp only [gamePhase, get_season_games, hx]

/-- C8: the two season tables of any completed run are written
unconditionally — both are present in the final state, they depend only
on the transport and the year (two completed runs over the same season
data produce identical tables whatever profile files or cumulative
table already exist, i.e. full overwrites, not appends), and a run
whose schedule fetch yielded Empty still writes both tables, empty. -/
theorem season_tables_full_overwrite (oracle : String → GetResult) (year : String)
    (f1 f2 : List String) (c1 c2 : Option (List ProfileRow)) (st1 st2 : RunState)
    (h1 : collect_season_data oracle year f1 c1 = .ok st1)
    (h2 : collect_season_data oracle year f2 c2 = .ok st2) :
    st1.gamesCsv = st2.gamesCsv ∧ st1.playerStatsCsv = st2.playerStatsCsv ∧
    st1.gamesCsv.isSome = true ∧ st1.playerStatsCsv.isSome = true ∧
    (resultOf (oracle (scheduleEndpoint year)) = none →
      st1.gamesCsv = some [] ∧ st1.playerStatsCsv = some []) := by
  simp only [collect_season_data] at h1 h2
  obtain ⟨g1, hg1, h1⟩ := bindEqOk h1
  obtain ⟨g2, hg2, h2⟩ := bindEqOk h2
  have hgg : g1 = g2 := Except.ok.inj (hg1.symm.trans hg2)
  subst hgg
  obtain ⟨p1, hp1, h1⟩ := bindEqOk h1
  obtain ⟨p2, hp2, h2⟩ := bindEqOk h2
  have hs1 : st1 = { p1 with logs := p1.logs ++ [.complete p1.api_calls] } :=
    (Except.ok.inj h1).symm
  have hs2 : st2 = { p2 with logs := p2.logs ++ [.complete p2.api_calls] } :=
    (Except.ok.inj h2).symm
  have hq1 := profilePhase_preserves oracle _ _ _ hp1
  have hq2 := profilePhase_preserves oracle _ _ _ hp2
  have e1 : st1.gamesCsv = some g1.gamesData := by
    rw [hs1]
    exact hq1.1.trans rfl
  have e2 : st2.gamesCsv = some g1.gamesData := by
    rw [hs2]
    exact hq2.1.trans rfl
  have e3 : st1.playerStatsCsv = some g1.playerStats := by
    rw [hs1]
    exact hq1.2.trans rfl
  have e4 : st2.playerStatsCsv = some g1.playerStats := by
    rw [hs2]
    exact hq2.2.trans rfl
  refine ⟨e1.trans e2.symm, e3.trans e4.symm, by rw [e1]; rfl, by rw [e3]; rfl, ?_⟩
  intro hempty
  obtain ⟨g0, hg0, hnil1, hnil2⟩ := gamePhase_schedule_empty oracle year hempty
  have hg01 : g0 = g1 := Except.ok.inj (hg0.symm.trans hg1)
  subst hg01
  rw [e1, e3, hnil1, hnil2]
  exact ⟨rfl, rfl⟩

/-- Witness for C8: two dead-transport runs from different initial
Players directories and cumulative tables end with identical, present,
empty season tables. -/
theorem season_tables_full_overwrite_witness :
    downRunA.gamesCsv = downRunB.gamesCsv ∧
    downRunA.playerStatsCsv = downRunB.playerStatsCsv ∧
    downRunA.gamesCsv.isSome = true ∧ downRunA.playerStatsCsv.isSome = true ∧
    (resultOf (transportDown (scheduleEndpoint "2021")) = none →
      downRunA.gamesCsv = some [] ∧ downRunA.playerStatsCsv = some []) :=
  season_tables_full_overwrite transportDown "2021" ["player_a.json"] []
    none (some []) downRunA downRunB rfl rfl

/-- C1 (code bug evidence): the Players directory already holds P1's
profile file under the exact name the script itself writes
(`player_P1.json`), yet the run issues a GET for P1's profile again —
`get_existing_players` collects stems (`player_P1`), which never equal
raw identifiers (`P1`), so the set difference at line 159 filters
nothing that was persisted by an earlier run. -/
theorem persisted_profile_refetched :
    get_existing_players ["player_P1.json"] = ["player_P1"] ∧
    ("player_" ++ pyStr (Json.str "P1") ++ ".json") = "player_P1.json" ∧
    "players/P1/profile.json" ∈ requestsOf
      (collect_season_data seasonOracle "2021" ["player_P1.json"] none) := by
  refine ⟨by decide, rfl, ?_⟩
  have h : requestsOf (collect_season_data seasonOracle "2021" ["player_P1.json"] none) =
      ["games/2021/REG/schedule.json", "games/G1/summary.json",
        "players/P1/profile.json"] := by decide
  rw [h]
  simp

end WNBA



